import Mathlib

set_option maxRecDepth 40000

/-!
# Payment-gateway backend: verified shallow embedding

A shallow embedding of the payment-gateway backend (Razorpay / PhonePe
adapters, webhook handlers, OAuth token cache, request validators) together
with theorems checking the behavioural properties stated in the system's
specification.

Machine integers are modelled as `Nat` with explicit `% 2^32` where the
source's 32-bit arithmetic overflows; JavaScript runtime values are modelled
by the inductive `JVal`; code that can raise a runtime exception is modelled
in `Except String`.
-/

namespace PayGw

/-! ## Bytes and hex -/

/-- Big-endian byte representation of `v`, `n` bytes wide (used for SHA-256
length padding and word serialisation). -/
def bytesBE (n : Nat) (v : Nat) : List Nat :=
  (List.range n).map (fun i => v >>> ((n - 1 - i) * 8) % 256)

/-- Lowercase hex digit for a value `< 16`, as produced by Node's
`digest('hex')`. -/
def hexDigit (n : Nat) : Char :=
  if n < 10 then Char.ofNat (48 + n) else Char.ofNat (87 + n)

/-- Lowercase hex string of a byte list. -/
def bytesToHex (bs : List Nat) : String :=
  String.mk ((bs.map (fun b => [hexDigit (b / 16), hexDigit (b % 16)])).flatten)

/-- UTF-8 encoding of one character (by code-point ranges, per RFC 3629). -/
def charUtf8 (c : Char) : List Nat :=
  let n := c.toNat
  if n < 0x80 then [n]
  else if n < 0x800 then [0xC0 + n / 64, 0x80 + n % 64]
  else if n < 0x10000 then [0xE0 + n / 4096, 0x80 + (n / 64) % 64, 0x80 + n % 64]
  else [0xF0 + n / 262144, 0x80 + (n / 4096) % 64, 0x80 + (n / 64) % 64, 0x80 + n % 64]

/-- UTF-8 encoding of a string, the byte stream Node feeds to `crypto`
primitives for string inputs. -/
def utf8Encode (s : String) : List Nat :=
  (s.data.map charUtf8).flatten

/-! ## SHA-256 (FIPS 180-4), on byte lists -/

/-- 32-bit modular addition. -/
def add32 (a b : Nat) : Nat := (a + b) % 4294967296

/-- 32-bit bitwise complement. -/
def not32 (a : Nat) : Nat := Nat.xor a 4294967295

/-- 32-bit right rotation by `n`. -/
def rotr32 (n a : Nat) : Nat :=
  Nat.lor (a >>> n) ((a <<< (32 - n)) % 4294967296)

/-- SHA-256 round constants. -/
def sha256K : List Nat :=
  [1116352408, 1899447441, 3049323471, 3921009573, 961987163,
   1508970993, 2453635748, 2870763221, 3624381080, 310598401,
   607225278, 1426881987, 1925078388, 2162078206, 2614888103,
   3248222580, 3835390401, 4022224774, 264347078, 604807628,
   770255983, 1249150122, 1555081692, 1996064986, 2554220882,
   2821834349, 2952996808, 3210313671, 3336571891, 3584528711,
   113926993, 338241895, 666307205, 773529912, 1294757372,
   1396182291, 1695183700, 1986661051, 2177026350, 2456956037,
   2730485921, 2820302411, 3259730800, 3345764771, 3516065817,
   3600352804, 4094571909, 275423344, 430227734, 506948616,
   659060556, 883997877, 958139571, 1322822218, 1537002063,
   1747873779, 1955562222, 2024104815, 2227730452, 2361852424,
   2428436474, 2756734187, 3204031479, 3329325298]

/-- SHA-256 initial hash value. -/
def sha256Init : List Nat :=
  [1779033703, 3144134277, 1013904242, 2773480762,
   1359893119, 2600822924, 528734635, 1541459225]

/-- σ₀ message-schedule function. -/
def smallSigma0 (x : Nat) : Nat :=
  Nat.xor (Nat.xor (rotr32 7 x) (rotr32 18 x)) (x >>> 3)

/-- σ₁ message-schedule function. -/
def smallSigma1 (x : Nat) : Nat :=
  Nat.xor (Nat.xor (rotr32 17 x) (rotr32 19 x)) (x >>> 10)

/-- Σ₀ round function. -/
def bigSigma0 (x : Nat) : Nat :=
  Nat.xor (Nat.xor (rotr32 2 x) (rotr32 13 x)) (rotr32 22 x)

/-- Σ₁ round function. -/
def bigSigma1 (x : Nat) : Nat :=
  Nat.xor (Nat.xor (rotr32 6 x) (rotr32 11 x)) (rotr32 25 x)

/-- `Ch(e,f,g)` choice function. -/
def ch (e f g : Nat) : Nat :=
  Nat.xor (Nat.land e f) (Nat.land (not32 e) g)

/-- `Maj(a,b,c)` majority function. -/
def maj (a b c : Nat) : Nat :=
  Nat.xor (Nat.xor (Nat.land a b) (Nat.land a c)) (Nat.land b c)

/-- SHA-256 padding: append `0x80`, zero bytes to 56 mod 64, and the 64-bit
big-endian bit length. -/
def padMessage (msg : List Nat) : List Nat :=
  let len := msg.length
  msg ++ [0x80] ++ List.replicate ((119 - len % 64) % 64) 0 ++ bytesBE 8 (len * 8)

/-- Group a byte list into big-endian 32-bit words. -/
def toWords : List Nat → List Nat
  | a :: b :: c :: d :: rest => (((a * 256 + b) * 256 + c) * 256 + d) :: toWords rest
  | _ => []

/-- Split a word list into chunks of 16 (one SHA-256 block each); the fuel
argument (instantiated with the list length, which strictly dominates the
number of chunks) keeps the recursion structural. -/
def chunks16Go : Nat → List Nat → List (List Nat)
  | 0, _ => []
  | _, [] => []
  | fuel + 1, ws => (ws.take 16) :: chunks16Go fuel (ws.drop 16)

/-- Split a word list into chunks of 16 (one SHA-256 block each). -/
def chunks16 (ws : List Nat) : List (List Nat) :=
  chunks16Go ws.length ws

/-- One message-schedule extension step: append
`σ₁(w[n-2]) + w[n-7] + σ₀(w[n-15]) + w[n-16]`. -/
def scheduleStep (w : List Nat) : List Nat :=
  w ++ [add32 (add32 (smallSigma1 (w.getD (w.length - 2) 0)) (w.getD (w.length - 7) 0))
        (add32 (smallSigma0 (w.getD (w.length - 15) 0)) (w.getD (w.length - 16) 0))]

/-- One SHA-256 compression round on the 8-word state. -/
def compressRound (k w : Nat) (st : List Nat) : List Nat :=
  match st with
  | [a, b, c, d, e, f, g, h] =>
    let t1 := add32 h (add32 (bigSigma1 e) (add32 (ch e f g) (add32 k w)))
    let t2 := add32 (bigSigma0 a) (maj a b c)
    [add32 t1 t2, a, b, c, add32 d t1, e, f, g]
  | other => other

/-- Process one 16-word block: extend the schedule to 64 words, run 64 rounds,
add the result into the running state. -/
def compressBlock (st block : List Nat) : List Nat :=
  let w := Nat.repeat scheduleStep 48 block
  let st2 := (sha256K.zip w).foldl (fun s kw => compressRound kw.1 kw.2 s) st
  List.zipWith add32 st st2

/-- SHA-256 digest of a byte list, as 8 words. -/
def sha256Words (msg : List Nat) : List Nat :=
  (chunks16 (toWords (padMessage msg))).foldl compressBlock sha256Init

/-- SHA-256 digest of a byte list, as 32 bytes. -/
def sha256Bytes (msg : List Nat) : List Nat :=
  ((sha256Words msg).map (bytesBE 4)).flatten

/-- `crypto.createHash('sha256').update(s).digest('hex')`. -/
def sha256Hex (s : String) : String :=
  bytesToHex (sha256Bytes (utf8Encode s))

/-! ## HMAC-SHA256 (RFC 2104) -/

/-- HMAC-SHA256 over byte lists. -/
def hmacSha256Bytes (key msg : List Nat) : List Nat :=
  let k0 := if 64 < key.length then sha256Bytes key else key
  let kPad := k0 ++ List.replicate (64 - k0.length) 0
  sha256Bytes ((kPad.map (Nat.xor · 0x5c)) ++
    sha256Bytes ((kPad.map (Nat.xor · 0x36)) ++ msg))

/-- `crypto.createHmac('sha256', key).update(msg).digest('hex')`. -/
def hmacSha256Hex (key msg : String) : String :=
  bytesToHex (hmacSha256Bytes (utf8Encode key) (utf8Encode msg))

/-! ## JavaScript runtime values

`JVal` models the JavaScript values flowing through the adapters: JSON-like
data plus `undefined`. Numbers are modelled as exact rationals. -/

mutual
/-- A JavaScript runtime value (the subset the adapters handle). -/
inductive JVal where
  | jundef
  | jnull
  | jbool (b : Bool)
  | jnum (q : ℚ)
  | jstr (s : String)
  | jobj (fields : JFields)

/-- The ordered field list of a JavaScript object (a mutual inductive rather
than a nested `List`, so that recursion over values stays structural and
kernel-reducible). -/
inductive JFields where
  | nil
  | cons (k : String) (v : JVal) (rest : JFields)
end

/-- Build a `JFields` from a plain association list. -/
def JFields.ofList : List (String × JVal) → JFields
  | [] => JFields.nil
  | (k, v) :: rest => JFields.cons k v (JFields.ofList rest)

namespace JVal

/-- Object literal notation helper: a JavaScript object from an association
list, fields in insertion order. -/
def obj (l : List (String × JVal)) : JVal :=
  JVal.jobj (JFields.ofList l)

/-- JavaScript truthiness: `undefined`, `null`, `false`, `0` and `""` are
falsy, every other modelled value is truthy. -/
def truthy : JVal → Bool
  | jundef => false
  | jnull => false
  | jbool b => b
  | jnum q => !(q == 0)
  | jstr s => !(s == "")
  | jobj _ => true

/-- First binding of key `key` in an object's field list. -/
def lookupField : JFields → String → Option JVal
  | JFields.nil, _ => none
  | JFields.cons k v rest, key => if k == key then some v else lookupField rest key

/-- Property read on a value known not to be nullish (also the semantics of
optional chaining `v?.k`): objects look the key up, primitives yield
`undefined`, and nullish bases also yield `undefined`. -/
def getFieldSafe : JVal → String → JVal
  | jobj fs, k => (lookupField fs k).getD jundef
  | _, _ => jundef

/-- Plain property read `v.k` / destructuring `const { k } = v`: throws a
`TypeError` when the base is `null` or `undefined`. -/
def getField (v : JVal) (k : String) : Except String JVal :=
  match v with
  | jnull => Except.error ("TypeError: Cannot read properties of null (reading " ++ k ++ ")")
  | jundef => Except.error ("TypeError: Cannot read properties of undefined (reading " ++ k ++ ")")
  | v => Except.ok (getFieldSafe v k)

/-- JavaScript strict equality `===` on the modelled values (objects compare
by reference in JavaScript; the adapters only ever strict-compare
primitives, so object-object comparison is modelled as false). -/
def jsStrictEq : JVal → JVal → Bool
  | jundef, jundef => true
  | jnull, jnull => true
  | jbool a, jbool b => a == b
  | jnum a, jnum b => a == b
  | jstr a, jstr b => a == b
  | _, _ => false

end JVal

/-- Did the modelled computation raise (propagate a JavaScript exception)? -/
def jsThrows : Except String JVal → Bool
  | Except.error _ => true
  | Except.ok _ => false

/-! ## JSON.stringify -/

/-- JSON string escaping for one character (the two-character escapes of
RFC 8259 plus `\u00XX` for other control characters). -/
def escapeJsonChar (c : Char) : List Char :=
  if c == '"' then ['\\', '"']
  else if c == '\\' then ['\\', '\\']
  else if c == Char.ofNat 8 then ['\\', 'b']
  else if c == Char.ofNat 9 then ['\\', 't']
  else if c == Char.ofNat 10 then ['\\', 'n']
  else if c == Char.ofNat 12 then ['\\', 'f']
  else if c == Char.ofNat 13 then ['\\', 'r']
  else if c.toNat < 32 then
    ['\\', 'u', '0', '0', hexDigit (c.toNat / 16), hexDigit (c.toNat % 16)]
  else [c]

/-- A JSON string literal (quoted, escaped). -/
def quoteJson (s : String) : String :=
  "\"" ++ String.mk ((s.data.map escapeJsonChar).flatten) ++ "\""

/-- Left-pad a numeral string with zeros to width `k`. -/
def padZeros (k : Nat) (s : String) : String :=
  String.mk (List.replicate (k - s.length) '0') ++ s

/-- Decimal rendering of a rational, as JavaScript prints a number: an
integer prints with no point, any other value with a terminating decimal
expansion prints its exact expansion (every IEEE double is such a value,
with scale at most 1075, so the 1100 search bound is not a restriction for
values a JavaScript number can hold). -/
def decimalOfRat (q : ℚ) : String :=
  if q.den = 1 then toString q.num
  else
    match (List.range 1100).find? (fun k => (q.den : ℕ) ∣ 10 ^ (k + 1)) with
    | some k0 =>
      let k := k0 + 1
      let scaled := q.num.natAbs * 10 ^ k / q.den
      (if q.num < 0 then "-" else "") ++ toString (scaled / 10 ^ k) ++ "." ++
        padZeros k (toString (scaled % 10 ^ k))
    | none => toString q.num ++ "/" ++ toString q.den

mutual
/-- `JSON.stringify` on a value: `none` exactly for `undefined`, which
`JSON.stringify` maps to no output. -/
def jsonStringify : JVal → Option String
  | JVal.jundef => none
  | JVal.jnull => some "null"
  | JVal.jbool b => some (cond b "true" "false")
  | JVal.jnum q => some (decimalOfRat q)
  | JVal.jstr s => some (quoteJson s)
  | JVal.jobj fs => some ("\x7b" ++ String.intercalate "," (stringifyMembers fs) ++ "\x7d")

/-- The serialised members of an object, in insertion order; members whose
value is `undefined` are skipped, as `JSON.stringify` does. -/
def stringifyMembers : JFields → List String
  | JFields.nil => []
  | JFields.cons k v rest =>
    match jsonStringify v with
    | none => stringifyMembers rest
    | some s => (quoteJson k ++ ":" ++ s) :: stringifyMembers rest
end

/-- `JSON.stringify` coerced to a string as JavaScript string concatenation
would coerce it (`undefined` becomes the string `"undefined"`); this is what
the PhonePe salt handler feeds into signature recomputation. -/
def stringifyD (v : JVal) : String :=
  (jsonStringify v).getD "undefined"

/-! ## Base64 (`Buffer.from(..).toString('base64')` and back) -/

/-- The base64 alphabet character for a 6-bit value. -/
def b64CharOf (n : Nat) : Char :=
  ("ABCDEFGHIJKLMNOPQRSTUVWXYZabcdefghijklmnopqrstuvwxyz0123456789+/".data).getD n 'A'

/-- Standard base64 encoding with padding, as
`Buffer.from(s).toString('base64')` produces. -/
def base64Encode : List Nat → String
  | [] => ""
  | [a] =>
    String.mk [b64CharOf (a / 4), b64CharOf (a % 4 * 16), '=', '=']
  | [a, b] =>
    String.mk [b64CharOf (a / 4), b64CharOf (a % 4 * 16 + b / 16), b64CharOf (b % 16 * 4), '=']
  | a :: b :: c :: rest =>
    String.mk [b64CharOf (a / 4), b64CharOf (a % 4 * 16 + b / 16),
      b64CharOf (b % 16 * 4 + c / 64), b64CharOf (c % 64)] ++ base64Encode rest

/-- 6-bit value of a base64 alphabet character (`none` for everything else,
including padding). -/
def b64Val (c : Char) : Option Nat :=
  if 'A' ≤ c ∧ c ≤ 'Z' then some (c.toNat - 65)
  else if 'a' ≤ c ∧ c ≤ 'z' then some (c.toNat - 97 + 26)
  else if '0' ≤ c ∧ c ≤ '9' then some (c.toNat - 48 + 52)
  else if c == '+' then some 62
  else if c == '/' then some 63
  else none

/-- Reassemble bytes from a stream of 6-bit values (a trailing group of one
value carries no whole byte and is dropped, as Node does). -/
def b64Bytes : List Nat → List Nat
  | a :: b :: c :: d :: rest =>
    (a * 4 + b / 16) :: (b % 16 * 16 + c / 4) :: (c % 4 * 64 + d) :: b64Bytes rest
  | [a, b] => [a * 4 + b / 16]
  | [a, b, c] => [a * 4 + b / 16, b % 16 * 16 + c / 4]
  | _ => []

/-- `Buffer.from(s, 'base64')`: Node's lenient decoder, which skips
characters outside the base64 alphabet (padding included) and decodes the
rest. -/
def base64Decode (s : String) : List Nat :=
  b64Bytes (s.data.filterMap b64Val)

/-! ## UTF-8 decoding (`buffer.toString('utf-8')`) -/

/-- Fuelled UTF-8 decoder loop; malformed lead or continuation bytes decode
to U+FFFD, as Node's decoder replaces them (fine-grained invalid-sequence
behaviour is approximated; the payloads the handlers decode are ASCII). -/
def utf8DecodeGo : Nat → List Nat → List Char
  | 0, _ => []
  | _, [] => []
  | fuel + 1, b :: rest =>
    if b < 128 then Char.ofNat b :: utf8DecodeGo fuel rest
    else if 194 ≤ b ∧ b ≤ 223 then
      match rest with
      | b2 :: r2 =>
        if 128 ≤ b2 ∧ b2 < 192 then
          Char.ofNat ((b - 192) * 64 + (b2 - 128)) :: utf8DecodeGo fuel r2
        else Char.ofNat 0xFFFD :: utf8DecodeGo fuel rest
      | [] => [Char.ofNat 0xFFFD]
    else if 224 ≤ b ∧ b ≤ 239 then
      match rest with
      | b2 :: b3 :: r2 =>
        if (128 ≤ b2 ∧ b2 < 192) ∧ (128 ≤ b3 ∧ b3 < 192) then
          Char.ofNat ((b - 224) * 4096 + (b2 - 128) * 64 + (b3 - 128)) :: utf8DecodeGo fuel r2
        else Char.ofNat 0xFFFD :: utf8DecodeGo fuel rest
      | _ => [Char.ofNat 0xFFFD]
    else if 240 ≤ b ∧ b ≤ 244 then
      match rest with
      | b2 :: b3 :: b4 :: r2 =>
        if (128 ≤ b2 ∧ b2 < 192) ∧ (128 ≤ b3 ∧ b3 < 192) ∧ (128 ≤ b4 ∧ b4 < 192) then
          Char.ofNat ((b - 240) * 262144 + (b2 - 128) * 4096 + (b3 - 128) * 64 + (b4 - 128)) ::
            utf8DecodeGo fuel r2
        else Char.ofNat 0xFFFD :: utf8DecodeGo fuel rest
      | _ => [Char.ofNat 0xFFFD]
    else Char.ofNat 0xFFFD :: utf8DecodeGo fuel rest

/-- `Buffer.prototype.toString('utf-8')` on a byte list. -/
def utf8Decode (bs : List Nat) : String :=
  String.mk (utf8DecodeGo bs.length bs)

/-! ## String search / replace (`String.prototype.replace` with a string
pattern replaces the first occurrence only) -/

/-- Is `pat` an initial segment of `cs`? -/
def startsWithL : List Char → List Char → Bool
  | [], _ => true
  | _ :: _, [] => false
  | p :: ps, c :: cs => p == c && startsWithL ps cs

/-- Index of the first occurrence of `pat` in `cs`, if any. -/
def findSub : List Char → List Char → Nat → Option Nat
  | cs, pat, i =>
    if startsWithL pat cs then some i
    else match cs with
      | [] => none
      | _ :: rest => findSub rest pat (i + 1)

/-- `s.replace(pat, repl)` with a string pattern: replace the first
occurrence of `pat`, or return `s` unchanged if it does not occur. -/
def replaceFirst (s pat repl : String) : String :=
  match findSub s.data pat.data 0 with
  | none => s
  | some i => String.mk (s.data.take i ++ repl.data ++ s.data.drop (i + pat.data.length))

/-! ## JavaScript Number() coercion -/

/-- Decimal digit predicate. -/
def isDigitChar (c : Char) : Bool :=
  '0' ≤ c && c ≤ '9'

/-- Value of a decimal digit string. -/
def digitsToNat (cs : List Char) : Nat :=
  cs.foldl (fun acc c => acc * 10 + (c.toNat - 48)) 0

/-- Value of a fraction digit string as a rational in `[0, 1)`. -/
def fracOf (cs : List Char) : ℚ :=
  (digitsToNat cs : ℚ) / (10 : ℚ) ^ cs.length

/-- JavaScript whitespace for `Number()` trimming (the ASCII subset; the
exotic Unicode space code points never occur in the amounts handled). -/
def jsWsChar (c : Char) : Bool :=
  c == ' ' || c == '\t' || c == '\n' || c == '\r' ||
    c == Char.ofNat 11 || c == Char.ofNat 12

/-- Trim leading and trailing whitespace, as `Number()` does before
parsing. -/
def jsTrim (s : String) : List Char :=
  ((s.data.dropWhile jsWsChar).reverse.dropWhile jsWsChar).reverse

/-- Unsigned decimal numeral `digits [. digits]` consuming the whole input
(as `Number()` requires); at least one digit must be present on one side of
the point. -/
def parseNumChars (cs : List Char) : Option ℚ :=
  let ds := cs.takeWhile isDigitChar
  let rest := cs.dropWhile isDigitChar
  match rest with
  | [] => if ds.isEmpty then none else some (digitsToNat ds : ℚ)
  | '.' :: fs =>
    if fs.all isDigitChar && !(ds.isEmpty && fs.isEmpty) then
      some ((digitsToNat ds : ℚ) + fracOf fs)
    else none
  | _ => none

/-- `Number(string)`: trim, empty means `0`, optional sign, plain decimal
numeral; `none` models `NaN`. (Exponent, hexadecimal and `Infinity` forms
are outside the modelled subset; no amount string the system handles uses
them.) -/
def strToNumber (s : String) : Option ℚ :=
  let t := jsTrim s
  if t = [] then some 0
  else match t with
    | '-' :: r => (parseNumChars r).map Neg.neg
    | '+' :: r => parseNumChars r
    | cs => parseNumChars cs

/-- `Number(v)` for the modelled values; `none` models `NaN` (plain objects
coerce via `"[object Object]"`, which is `NaN`). -/
def toNumber : JVal → Option ℚ
  | JVal.jundef => none
  | JVal.jnull => some 0
  | JVal.jbool b => some (cond b 1 0)
  | JVal.jnum q => some q
  | JVal.jstr s => strToNumber s
  | JVal.jobj _ => none

/-! ## JSON.parse -/

/-- Skip JSON insignificant whitespace. -/
def skipWs (cs : List Char) : List Char :=
  cs.dropWhile (fun c => c == ' ' || c == '\t' || c == '\n' || c == '\r')

/-- Hex digit value. -/
def hexVal (c : Char) : Option Nat :=
  if '0' ≤ c ∧ c ≤ '9' then some (c.toNat - 48)
  else if 'a' ≤ c ∧ c ≤ 'f' then some (c.toNat - 87)
  else if 'A' ≤ c ∧ c ≤ 'F' then some (c.toNat - 55)
  else none

/-- Body of a JSON string literal after its opening quote: the decoded
characters and the remaining input after the closing quote. -/
def parseStringBody : Nat → List Char → Option (List Char × List Char)
  | 0, _ => none
  | fuel + 1, cs =>
    match cs with
    | [] => none
    | '"' :: rest => some ([], rest)
    | '\\' :: e :: rest =>
      if e == 'u' then
        match rest with
        | h1 :: h2 :: h3 :: h4 :: r2 =>
          match hexVal h1, hexVal h2, hexVal h3, hexVal h4 with
          | some a, some b, some c, some d =>
            (parseStringBody fuel r2).map
              (fun p => (Char.ofNat (((a * 16 + b) * 16 + c) * 16 + d) :: p.1, p.2))
          | _, _, _, _ => none
        | _ => none
      else
        let esc : Option Char :=
          if e == '"' then some '"'
          else if e == '\\' then some '\\'
          else if e == '/' then some '/'
          else if e == 'b' then some (Char.ofNat 8)
          else if e == 'f' then some (Char.ofNat 12)
          else if e == 'n' then some (Char.ofNat 10)
          else if e == 'r' then some (Char.ofNat 13)
          else if e == 't' then some (Char.ofNat 9)
          else none
        match esc with
        | some c => (parseStringBody fuel rest).map (fun p => (c :: p.1, p.2))
        | none => none
    | ['\\'] => none
    | c :: rest => (parseStringBody fuel rest).map (fun p => (c :: p.1, p.2))

/-- A JSON number at the head of the input: optional minus, integer digits,
optional fraction (the exponent form is outside the modelled subset; the
gateway payloads the handlers decode do not use it). -/
def parseJsonNumber (cs : List Char) : Option (ℚ × List Char) :=
  let neg := match cs with | '-' :: _ => true | _ => false
  let cs1 := match cs with | '-' :: r => r | _ => cs
  let ds := cs1.takeWhile isDigitChar
  let cs2 := cs1.dropWhile isDigitChar
  if ds.isEmpty then none
  else
    match cs2 with
    | '.' :: r =>
      let fs := r.takeWhile isDigitChar
      let cs3 := r.dropWhile isDigitChar
      if fs.isEmpty then none
      else
        let q : ℚ := (digitsToNat ds : ℚ) + fracOf fs
        some ((if neg then -q else q), cs3)
    | _ => some ((if neg then -(digitsToNat ds : ℚ) else (digitsToNat ds : ℚ)), cs2)

/-- The recursive JSON parser, defunctionalised over one fuel argument so the
recursion is structural: in value mode (`true`) it parses one JSON value, in
member mode (`false`) it parses the members of an object after its opening
brace up to and including the closing brace. Arrays are outside the modelled
subset (none of the webhook payloads the spec describes carry arrays); an
unsupported form simply fails, which models `JSON.parse` throwing. -/
def parseMachine : Nat → Bool → List Char → Option ((JVal ⊕ List (String × JVal)) × List Char)
  | 0, _, _ => none
  | fuel + 1, true, cs =>
    match skipWs cs with
    | 'n' :: 'u' :: 'l' :: 'l' :: rest => some (Sum.inl JVal.jnull, rest)
    | 't' :: 'r' :: 'u' :: 'e' :: rest => some (Sum.inl (JVal.jbool true), rest)
    | 'f' :: 'a' :: 'l' :: 's' :: 'e' :: rest => some (Sum.inl (JVal.jbool false), rest)
    | '"' :: rest =>
      (parseStringBody rest.length rest).map
        (fun p => (Sum.inl (JVal.jstr (String.mk p.1)), p.2))
    | '\x7b' :: rest =>
      (match skipWs rest with
       | '\x7d' :: r3 => some (Sum.inl (JVal.obj []), r3)
       | r2 =>
         match parseMachine fuel false r2 with
         | some (Sum.inr fs, r3) => some (Sum.inl (JVal.obj fs), r3)
         | _ => none)
    | rest => (parseJsonNumber rest).map (fun p => (Sum.inl (JVal.jnum p.1), p.2))
  | fuel + 1, false, cs =>
    match skipWs cs with
    | '"' :: rest =>
      match parseStringBody rest.length rest with
      | none => none
      | some (key, r2) =>
        match skipWs r2 with
        | ':' :: r3 =>
          match parseMachine fuel true r3 with
          | some (Sum.inl v, r4) =>
            (match skipWs r4 with
             | ',' :: r5 =>
               match parseMachine fuel false r5 with
               | some (Sum.inr fs, r6) => some (Sum.inr ((String.mk key, v) :: fs), r6)
               | _ => none
             | '\x7d' :: r5 => some (Sum.inr [(String.mk key, v)], r5)
             | _ => none)
          | _ => none
        | _ => none
    | _ => none

/-- `JSON.parse` on the modelled subset; `none` models a thrown
`SyntaxError`. -/
def jsonParse (s : String) : Option JVal :=
  match parseMachine (s.length + 2) true s.data with
  | some (Sum.inl v, rest) => if skipWs rest = [] then some v else none
  | _ => none

/-! ## Razorpay adapter (`gateways/razorpay.js`)

The gateway secret (`process.env.RAZORPAY_KEY_SECRET`) is passed as an
explicit parameter. -/

/-- `verifyRazorpaySignature`: HMAC-SHA256 of `"{orderId}|{paymentId}"` under
the secret, hex-encoded, strictly compared with the supplied signature. -/
def verifyRazorpaySignature (secret orderId paymentId signature : String) : Bool :=
  hmacSha256Hex secret (orderId ++ "|" ++ paymentId) == signature

/-- `handleRazorpayWebhook(webhookData, webhookSignature)`.

Mirrors the source line by line: the entry log reads `webhookData.event`
(which throws on a nullish body — the enclosing `catch` logs and
*re-throws*, modelled by `Except.error`); the HMAC-SHA256 of
`JSON.stringify(webhookData)` is compared with the signature header and a
mismatch returns `{valid:false}`; on a match the handler switches on the
`event` field, reading the payload fields each branch logs and returns, and
unknown events return `{valid:true, processed:false}`.
(`JSON.stringify(undefined)` is `undefined`, which `hmac.update` rejects
with a thrown `TypeError`.) -/
def handleRazorpayWebhook (secret : String) (webhookData : JVal)
    (webhookSignature : Option String) : Except String JVal := do
  let _ ← JVal.getField webhookData "event"
  let body ← match jsonStringify webhookData with
    | some s => Except.ok s
    | none => Except.error "TypeError: The \"data\" argument must be of type string"
  let digest := hmacSha256Hex secret body
  if some digest ≠ webhookSignature then
    return JVal.obj [("valid", JVal.jbool false), ("message", JVal.jstr "Invalid signature")]
  let event := JVal.getFieldSafe webhookData "event"
  let payload := JVal.getFieldSafe webhookData "payload"
  match event with
  | JVal.jstr s =>
    if s = "payment.authorized" then do
      let pm ← JVal.getField payload "payment"
      let ent ← JVal.getField pm "entity"
      let pid ← JVal.getField ent "id"
      return JVal.obj [("valid", JVal.jbool true), ("event", event),
        ("paymentId", pid), ("status", JVal.jstr "success")]
    else if s = "payment.failed" then do
      let pm ← JVal.getField payload "payment"
      let ent ← JVal.getField pm "entity"
      let pid ← JVal.getField ent "id"
      let why ← JVal.getField ent "error_description"
      return JVal.obj [("valid", JVal.jbool true), ("event", event),
        ("paymentId", pid), ("status", JVal.jstr "failed"), ("reason", why)]
    else if s = "payment.captured" then do
      let pm ← JVal.getField payload "payment"
      let ent ← JVal.getField pm "entity"
      let pid ← JVal.getField ent "id"
      return JVal.obj [("valid", JVal.jbool true), ("event", event),
        ("paymentId", pid), ("status", JVal.jstr "captured")]
    else if s = "refund.created" then do
      let rf ← JVal.getField payload "refund"
      let ent ← JVal.getField rf "entity"
      let rid ← JVal.getField ent "id"
      let _ ← JVal.getField ent "payment_id"
      return JVal.obj [("valid", JVal.jbool true), ("event", event),
        ("refundId", rid), ("status", JVal.jstr "refunded")]
    else
      return JVal.obj [("valid", JVal.jbool true), ("event", event),
        ("processed", JVal.jbool false)]
  | _ =>
    return JVal.obj [("valid", JVal.jbool true), ("event", event),
      ("processed", JVal.jbool false)]

/-- The minor-unit conversion `Math.round(amount * 100)` in
`createRazorpayOrder` (amount in paise). `Math.round(x)` is `⌊x + 1/2⌋`. -/
def createRazorpayOrderPaise (amount : ℚ) : ℤ :=
  ⌊amount * 100 + 1 / 2⌋

/-! ## PhonePe adapter, salt-based variant (`gateways/phonepe.js` of the
backend distribution)

Salt key, salt index and the webhook Basic-Auth credentials
(`process.env.PHONEPE_SALT_KEY`, `PHONEPE_SALT_INDEX`,
`PHONEPE_WEBHOOK_USER`, `PHONEPE_WEBHOOK_PASS`) are explicit parameters. -/

/-- `generatePhonePeSignature(requestBody)`:
`SHA256(requestBody + saltKey)` in hex, then `"###"` and the salt index. -/
def generatePhonePeSignature (saltKey saltIndex requestBody : String) : String :=
  sha256Hex (requestBody ++ saltKey) ++ "###" ++ saltIndex

/-- `verifyPhonePeSignature(requestBody, xVerifyHeader)`: recompute and
strictly compare (an absent header compares unequal). -/
def verifyPhonePeSignature (saltKey saltIndex : String) (requestBody : String)
    (xVerifyHeader : Option String) : Bool :=
  some (generatePhonePeSignature saltKey saltIndex requestBody) == xVerifyHeader

/-- The minor-unit conversion `Math.round(amount * 100)` in the salt-based
`createPhonePeOrder`. -/
def createPhonePeOrderPaiseSalt (amount : ℚ) : ℤ :=
  ⌊amount * 100 + 1 / 2⌋

/-- The minor-unit conversion `Math.round(amount * 100)` in the salt-based
`refundPhonePePayment`. -/
def refundPhonePePaiseSalt (amount : ℚ) : ℤ :=
  ⌊amount * 100 + 1 / 2⌋

/-- `handlePhonePeWebhook(webhookData, xVerifyHeader, authHeader)` of the
salt-based adapter.

Stage 1 compares the supplied Basic-Auth header (with a first `"Basic "`
occurrence stripped; an absent header coerces to `""` through `?.` and
`|| ''`) against `base64("{user}:{pass}")`, rejecting with `{valid:false}`.
Stage 2 recomputes the X-VERIFY signature over `JSON.stringify(webhookData)`
(string-coerced, so an `undefined` body hashes the text `"undefined"`) and
rejects with `{valid:false}` on mismatch. Then `const { data } =
webhookData` (throws on a nullish body), and the nested `data.response` is
base64-decoded and JSON-parsed inside a `try` whose `catch` falls back to
the raw `data.response` (re-reading the property, which throws if `data` is
nullish). The result object reads the transaction fields off the decoded
value; `success` is the strict equality of its `state` with
`"COMPLETED"`. -/
def handlePhonePeWebhookSalt (saltKey saltIndex wuser wpass : String)
    (webhookData : JVal) (xVerifyHeader authHeader : Option String) :
    Except String JVal := do
  let expectedAuth := base64Encode (utf8Encode (wuser ++ ":" ++ wpass))
  let providedAuth :=
    match authHeader with
    | none => ""
    | some s => replaceFirst s "Basic " ""
  if providedAuth ≠ expectedAuth then
    return JVal.obj [("valid", JVal.jbool false),
      ("message", JVal.jstr "Invalid authentication")]
  let webhookBody := stringifyD webhookData
  if ¬ verifyPhonePeSignature saltKey saltIndex webhookBody xVerifyHeader then
    return JVal.obj [("valid", JVal.jbool false),
      ("message", JVal.jstr "Invalid signature")]
  let data ← JVal.getField webhookData "data"
  let decoded : Except String JVal := do
    let resp ← JVal.getField data "response"
    match resp with
    | JVal.jstr s =>
      match jsonParse (utf8Decode (base64Decode s)) with
      | some v => Except.ok v
      | none => Except.error "SyntaxError: Unexpected token in JSON"
    | _ => Except.error "TypeError: first argument must be a string or Buffer"
  let responseData ←
    match decoded with
    | Except.ok v => Except.ok v
    | Except.error _ => JVal.getField data "response"
  let tid ← JVal.getField responseData "merchantTransactionId"
  let st ← JVal.getField responseData "state"
  let rc ← JVal.getField responseData "responseCode"
  let amt ← JVal.getField responseData "amount"
  let ts ← JVal.getField responseData "transactionDate"
  return JVal.obj [("valid", JVal.jbool true), ("transactionId", tid),
    ("status", st), ("responseCode", rc), ("amount", amt), ("timestamp", ts),
    ("success", JVal.jbool (JVal.jsStrictEq st (JVal.jstr "COMPLETED")))]

/-! ## PhonePe adapter, OAuth variant (`services/phonepe.js`) -/

/-- The minor-unit conversion `Math.round(amount * 100)` in the OAuth
`createPhonePeOrder`. -/
def createPhonePeOrderPaiseOAuth (amount : ℚ) : ℤ :=
  ⌊amount * 100 + 1 / 2⌋

/-- The minor-unit conversion `Math.round(amount * 100)` in the OAuth
`refundPhonePePayment`. -/
def refundPhonePePaiseOAuth (amount : ℚ) : ℤ :=
  ⌊amount * 100 + 1 / 2⌋

/-- `handlePhonePeWebhook(webhookData)` of the OAuth adapter: no signature
or authentication input at all. `const { data, success } = webhookData ||
{}` destructures off a defaulted base (never nullish, so it cannot throw);
a falsy body or falsy `data` returns `{processed:false}`; otherwise the
payload fields are passed through as-is. The entry log uses only optional
chaining, which never throws. -/
def handlePhonePeWebhookOAuth (webhookData : JVal) : Except String JVal := do
  let base := if webhookData.truthy then webhookData else JVal.obj []
  let data := JVal.getFieldSafe base "data"
  let success := JVal.getFieldSafe base "success"
  if ¬ webhookData.truthy ∨ ¬ data.truthy then
    return JVal.obj [("processed", JVal.jbool false),
      ("message", JVal.jstr "Invalid webhook format")]
  return JVal.obj [("processed", JVal.jbool true),
    ("orderId", JVal.getFieldSafe data "merchantOrderId"),
    ("status", JVal.getFieldSafe data "state"),
    ("amount", JVal.getFieldSafe data "amount"),
    ("success", success)]

/-! ## OAuth token cache (`getAccessToken` in `services/phonepe.js`)

The module-level mutable `tokenCache` is passed and returned explicitly;
`Date.now()` is the `now` parameter (epoch milliseconds); the network
outcome of the `axios.post` to the identity endpoint is the `fetchOutcome`
parameter; the third component of the result counts token-fetch requests
issued by the call. -/

/-- The OAuth client credentials from the environment (`none` models an
unset variable). -/
structure OAuthConfig where
  clientId : Option String
  clientSecret : Option String

/-- The module-level token cache; initialised to
`{ accessToken: null, expiresAt: null }`. -/
structure TokenCache where
  accessToken : Option String
  expiresAt : Option Int

/-- The initial cache value. -/
def emptyTokenCache : TokenCache :=
  { accessToken := none, expiresAt := none }

/-- Truthiness of an environment string (unset or empty is falsy). -/
def envTruthy : Option String → Bool
  | none => false
  | some s => !(s == "")

/-- The fields of the identity endpoint's response body the code reads
(`access_token` may be absent, which the code treats as an error). -/
structure TokenResponse where
  access_token : Option String
  expires_in : Int

/-- `tokenCache.accessToken && tokenCache.expiresAt > Date.now()`: a falsy
(absent or empty) token fails the check, and a `null` expiry coerces to `0`
in the comparison. -/
def cacheHit (cache : TokenCache) (now : Int) : Bool :=
  (match cache.accessToken with
   | some s => !(s == "")
   | none => false) &&
  decide (now < cache.expiresAt.getD 0)

/-- The error object the `catch` block throws, for every failure cause. -/
def authFailureMessage : String :=
  "Failed to authenticate with PhonePe"

/-- Post-`await` processing of the token response: a failed request or a
falsy `access_token` throws (wrapped by the `catch`); otherwise the cache is
overwritten with the token and expiry `now + (expires_in - 60) * 1000`
milliseconds, and the token is returned. -/
def fetchSettle (now : Int) (cache : TokenCache)
    (fetchOutcome : Except String TokenResponse) :
    Except String String × TokenCache :=
  match fetchOutcome with
  | Except.error _ => (Except.error authFailureMessage, cache)
  | Except.ok resp =>
    match resp.access_token with
    | none => (Except.error authFailureMessage, cache)
    | some tok =>
      if tok = "" then (Except.error authFailureMessage, cache)
      else (Except.ok tok,
        { accessToken := some tok,
          expiresAt := some (now + (resp.expires_in - 60) * 1000) })

/-- `getAccessToken()`: return the cached token if present and unexpired
(issuing no fetch); otherwise require both credentials, issue one fetch and
settle it. -/
def getAccessToken (cfg : OAuthConfig) (cache : TokenCache) (now : Int)
    (fetchOutcome : Except String TokenResponse) :
    Except String String × TokenCache × Nat :=
  if cacheHit cache now then
    (Except.ok (cache.accessToken.getD ""), cache, 0)
  else if !(envTruthy cfg.clientId) || !(envTruthy cfg.clientSecret) then
    (Except.error authFailureMessage, cache, 0)
  else
    let s := fetchSettle now cache fetchOutcome
    (s.1, s.2, 1)

/-! ## Event-loop interleaving of two `getAccessToken` callers

`getAccessToken` runs synchronously from entry up to the `await axios.post`
(the cache check, and — on a miss — issuing the fetch), suspends there, and
runs synchronously again when the response arrives (writing the cache and
returning). Each caller is therefore a two-segment task; the scheduler picks
which task runs its next segment. -/

/-- A caller's position: before its first segment, suspended at the
`await`, or returned. -/
inductive CallerPhase where
  | ready
  | waiting
  | done (r : Except String String)

/-- Caller identifiers. -/
inductive Tid where
  | A
  | B

/-- The shared state of two concurrent callers: the module-level cache, each
caller's phase, and how many token fetches have been issued. -/
structure TwoCallers where
  cache : TokenCache
  phaseA : CallerPhase
  phaseB : CallerPhase
  fetches : Nat

/-- Run one synchronous segment of a caller: from `ready`, the cache check —
a hit returns the cached token, missing credentials throw, and otherwise the
fetch is issued and the caller suspends; from `waiting`, the response
settles exactly as in `getAccessToken`. -/
def stepPhase (cfg : OAuthConfig) (now : Int)
    (fetchOutcome : Except String TokenResponse) (cache : TokenCache)
    (fetches : Nat) : CallerPhase → CallerPhase × TokenCache × Nat
  | CallerPhase.ready =>
    if cacheHit cache now then
      (CallerPhase.done (Except.ok (cache.accessToken.getD "")), cache, fetches)
    else if !(envTruthy cfg.clientId) || !(envTruthy cfg.clientSecret) then
      (CallerPhase.done (Except.error authFailureMessage), cache, fetches)
    else
      (CallerPhase.waiting, cache, fetches + 1)
  | CallerPhase.waiting =>
    let s := fetchSettle now cache fetchOutcome
    (CallerPhase.done s.1, s.2, fetches)
  | CallerPhase.done r => (CallerPhase.done r, cache, fetches)

/-- Let the named caller run its next segment. -/
def stepTid (cfg : OAuthConfig) (now : Int)
    (fetchOutcome : Except String TokenResponse) (s : TwoCallers) :
    Tid → TwoCallers
  | Tid.A =>
    let r := stepPhase cfg now fetchOutcome s.cache s.fetches s.phaseA
    { cache := r.2.1, phaseA := r.1, phaseB := s.phaseB, fetches := r.2.2 }
  | Tid.B =>
    let r := stepPhase cfg now fetchOutcome s.cache s.fetches s.phaseB
    { cache := r.2.1, phaseA := s.phaseA, phaseB := r.1, fetches := r.2.2 }

/-- Run a schedule (a list of which caller runs each segment). -/
def runSchedule (cfg : OAuthConfig) (now : Int)
    (fetchOutcome : Except String TokenResponse) (sched : List Tid)
    (s : TwoCallers) : TwoCallers :=
  sched.foldl (stepTid cfg now fetchOutcome) s

/-- Two callers about to enter `getAccessToken` against a given cache. -/
def startTwoCallers (cache : TokenCache) : TwoCallers :=
  { cache := cache, phaseA := CallerPhase.ready, phaseB := CallerPhase.ready,
    fetches := 0 }

/-! ## Validators (`utils/validators.js`) -/

/-- `validators.validateAmount(amount)`: a falsy amount is "required"; a
`Number()` coercion that is `NaN` or non-positive is "must be a positive
number"; below 1 is "Minimum amount is ₹1"; otherwise valid. -/
def validateAmount (amount : JVal) : JVal :=
  if ¬ amount.truthy then
    JVal.obj [("valid", JVal.jbool false), ("error", JVal.jstr "Amount is required")]
  else
    match toNumber amount with
    | none =>
      JVal.obj [("valid", JVal.jbool false),
        ("error", JVal.jstr "Amount must be a positive number")]
    | some q =>
      if q ≤ 0 then
        JVal.obj [("valid", JVal.jbool false),
          ("error", JVal.jstr "Amount must be a positive number")]
      else if q < 1 then
        JVal.obj [("valid", JVal.jbool false),
          ("error", JVal.jstr "Minimum amount is ₹1")]
      else JVal.obj [("valid", JVal.jbool true)]

/-! ## Miscellaneous helpers for stating the claims -/

/-- Replace the byte at position `i` of an ASCII string with the next
character, for stating single-byte-perturbation properties. -/
def perturbAt (s : String) (i : Nat) : String :=
  String.mk (s.data.set i (Char.ofNat ((s.data.getD i ' ').toNat + 1)))

/-! ## Helper lemmas -/

/-- Property reads off a non-nullish base never throw. -/
theorem getField_of_base (v : JVal) (k : String) (h1 : v ≠ JVal.jnull)
    (h2 : v ≠ JVal.jundef) :
    JVal.getField v k = Except.ok (JVal.getFieldSafe v k) := by
  cases v <;> simp_all [JVal.getField]

/-- If one property read of `v` succeeded, every other one does too. -/
theorem getField_ok_of_ok {v : JVal} {k : String} {x : JVal} (k' : String)
    (h : JVal.getField v k = Except.ok x) :
    JVal.getField v k' = Except.ok (JVal.getFieldSafe v k') := by
  cases v <;> simp_all [JVal.getField]

/-- `JSON.stringify` yields a string on everything but `undefined`. -/
theorem jsonStringify_of_ne_undef (v : JVal) (h : v ≠ JVal.jundef) :
    jsonStringify v = some (stringifyD v) := by
  cases v <;> first
    | exact absurd rfl h
    | rfl

/-- Strict equality against a string literal holds exactly on that
string. -/
theorem jsStrictEq_jstr_iff (x : JVal) (s : String) :
    JVal.jsStrictEq x (JVal.jstr s) = true ↔ x = JVal.jstr s := by
  cases x <;> simp [JVal.jsStrictEq]

/-- The OAuth webhook handler, in closed form: it never throws, and it
returns the pass-through payload exactly when the body and its `data` field
are truthy. -/
theorem handlePhonePeWebhookOAuth_eq (b : JVal) :
    handlePhonePeWebhookOAuth b = Except.ok (
      if b.truthy && (JVal.getFieldSafe b "data").truthy then
        JVal.obj [("processed", JVal.jbool true),
          ("orderId", JVal.getFieldSafe (JVal.getFieldSafe b "data") "merchantOrderId"),
          ("status", JVal.getFieldSafe (JVal.getFieldSafe b "data") "state"),
          ("amount", JVal.getFieldSafe (JVal.getFieldSafe b "data") "amount"),
          ("success", JVal.getFieldSafe b "success")]
      else JVal.obj [("processed", JVal.jbool false),
        ("message", JVal.jstr "Invalid webhook format")]) := by
  by_cases hb : b.truthy
  · by_cases hd : (JVal.getFieldSafe b "data").truthy
    · simp [handlePhonePeWebhookOAuth, hb, hd]; rfl
    · simp [handlePhonePeWebhookOAuth, hb, hd]; rfl
  · have hdataF : (JVal.getFieldSafe (JVal.obj []) "data").truthy = false := rfl
    simp [handlePhonePeWebhookOAuth, hb, hdataF]; rfl

/-! ## Claim theorems -/

/-- C1: for every orderId, paymentId and signature, `verifyRazorpaySignature`
returns true iff the signature equals the (lowercase hex) HMAC-SHA256 digest
of `"{orderId}|{paymentId}"` under the configured secret; with secret
`"s3cr3t"`, orderId `"order_abc"` and paymentId `"pay_xyz"` that digest is
`ee21698235c31aef5bb049b86d1c00014db7de75dbe78cb4ed9ffa8e90855655`, which
verifies, while `"0000"` does not. -/
theorem verifyRazorpaySignature_correct :
    (∀ secret orderId paymentId signature,
      verifyRazorpaySignature secret orderId paymentId signature = true ↔
        signature = hmacSha256Hex secret (orderId ++ "|" ++ paymentId)) ∧
    hmacSha256Hex "s3cr3t" "order_abc|pay_xyz" =
      "ee21698235c31aef5bb049b86d1c00014db7de75dbe78cb4ed9ffa8e90855655" ∧
    verifyRazorpaySignature "s3cr3t" "order_abc" "pay_xyz"
      "ee21698235c31aef5bb049b86d1c00014db7de75dbe78cb4ed9ffa8e90855655" = true ∧
    verifyRazorpaySignature "s3cr3t" "order_abc" "pay_xyz" "0000" = false := by
  have hiff : ∀ secret orderId paymentId signature,
      verifyRazorpaySignature secret orderId paymentId signature = true ↔
        signature = hmacSha256Hex secret (orderId ++ "|" ++ paymentId) := by
    intro sec o p g
    simp only [verifyRazorpaySignature, beq_iff_eq]
    exact eq_comm
  have happ : "order_abc" ++ "|" ++ "pay_xyz" = "order_abc|pay_xyz" := rfl
  have hdig : hmacSha256Hex "s3cr3t" "order_abc|pay_xyz" =
      "ee21698235c31aef5bb049b86d1c00014db7de75dbe78cb4ed9ffa8e90855655" := rfl
  have hacc : verifyRazorpaySignature "s3cr3t" "order_abc" "pay_xyz"
      "ee21698235c31aef5bb049b86d1c00014db7de75dbe78cb4ed9ffa8e90855655" = true := by
    rw [hiff, happ, hdig]
  have hrej : verifyRazorpaySignature "s3cr3t" "order_abc" "pay_xyz" "0000" = false := by
    rcases hb : verifyRazorpaySignature "s3cr3t" "order_abc" "pay_xyz" "0000" with _ | _
    · rfl
    · have h2 := (hiff _ _ _ _).mp hb
      rw [happ, hdig] at h2
      exact absurd h2 (by decide)
  exact ⟨hiff, hdig, hacc, hrej⟩

/-- C9: every createOrder / refund minor-unit conversion in the adapters is
`Math.round(amount * 100)`, which for every amount equals `round(x * 100)`
(`⌊x·100 + 1/2⌋`, rounding to the nearest integer, halves up); in
particular 499 ↦ 49900 and 19.999 ↦ 2000. -/
theorem minor_unit_conversion_round (x : ℚ) (hx : 0 ≤ x) :
    createRazorpayOrderPaise x = round (x * 100) ∧
    createPhonePeOrderPaiseSalt x = round (x * 100) ∧
    createPhonePeOrderPaiseOAuth x = round (x * 100) ∧
    refundPhonePePaiseSalt x = round (x * 100) ∧
    refundPhonePePaiseOAuth x = round (x * 100) ∧
    createRazorpayOrderPaise 499 = 49900 ∧
    createRazorpayOrderPaise (19999 / 1000) = 2000 ∧
    createPhonePeOrderPaiseSalt (19999 / 1000) = 2000 ∧
    createPhonePeOrderPaiseOAuth 499 = 49900 := by
  refine ⟨?_, ?_, ?_, ?_, ?_, ?_, ?_, ?_, ?_⟩ <;>
    first
      | (rw [round_eq]; rfl)
      | norm_num [createRazorpayOrderPaise, createPhonePeOrderPaiseSalt,
          createPhonePeOrderPaiseOAuth, Int.floor_eq_iff]

/-- C9 witness: the conversion theorem applied at the amount 499. -/
theorem minor_unit_conversion_round_witness :
    createRazorpayOrderPaise 499 = round ((499 : ℚ) * 100) :=
  (minor_unit_conversion_round 499 (by norm_num)).1

/-- C10 counterexample: `validateAmount(true)` returns `{valid:true}`
although the boolean `true` is not a numeric amount (its `Number()` coercion
is `1`, which passes every check). -/
theorem validateAmount_accepts_boolean_true :
    validateAmount (JVal.jbool true) = JVal.obj [("valid", JVal.jbool true)] := by
  rfl

/-- C10 (amended): `validateAmount` returns `{valid:true}` exactly when the
JavaScript `Number()` coercion of the input is a (non-`NaN`) value `≥ 1` —
so every numeric amount below 1 (the open interval (0,1) and zero included)
and every input coercing to `NaN` is rejected with `{valid:false}` and an
error message, but inputs such as the boolean `true` or numeric strings
are accepted; every result is either `{valid:true}` or `{valid:false}` with
an error message. -/
theorem validateAmount_valid_iff (v : JVal) :
    (validateAmount v = JVal.obj [("valid", JVal.jbool true)] ↔
      ∃ q, toNumber v = some q ∧ 1 ≤ q) ∧
    (validateAmount v = JVal.obj [("valid", JVal.jbool true)] ∨
      ∃ msg, validateAmount v =
        JVal.obj [("valid", JVal.jbool false), ("error", JVal.jstr msg)]) := by
  have truthy_of : ∀ (w : JVal) (q : ℚ), toNumber w = some q → 1 ≤ q → w.truthy = true := by
    intro w q hn hq
    cases w with
    | jundef => simp [toNumber] at hn
    | jnull =>
      simp only [toNumber, Option.some.injEq] at hn
      exfalso; rw [← hn] at hq; norm_num at hq
    | jbool b =>
      cases b with
      | false =>
        simp only [toNumber, cond, Option.some.injEq] at hn
        exfalso; rw [← hn] at hq; norm_num at hq
      | true => rfl
    | jnum p =>
      simp only [toNumber, Option.some.injEq] at hn
      have hne : p ≠ 0 := by
        intro h0
        rw [h0] at hn
        rw [← hn] at hq
        norm_num at hq
      simp [JVal.truthy, hne]
    | jstr s =>
      by_cases hs : s = ""
      · subst hs
        have hz : strToNumber "" = some 0 := rfl
        simp only [toNumber] at hn
        rw [hz] at hn
        injection hn with hn
        exfalso; rw [← hn] at hq; norm_num at hq
      · simp [JVal.truthy, hs]
    | jobj fs => simp [toNumber] at hn
  constructor
  · constructor
    · intro h
      by_cases ht : v.truthy
      · rcases hn : toNumber v with _ | q
        · simp [validateAmount, ht, hn, JVal.obj, JFields.ofList] at h
        · by_cases h0 : q ≤ 0
          · simp [validateAmount, ht, hn, h0, JVal.obj, JFields.ofList] at h
          · by_cases h1 : q < 1
            · simp [validateAmount, ht, hn, h0, h1, JVal.obj, JFields.ofList] at h
            · exact ⟨q, rfl, le_of_not_lt h1⟩
      · simp [validateAmount, ht, JVal.obj, JFields.ofList] at h
    · rintro ⟨q, hn, hq⟩
      have ht := truthy_of v q hn hq
      have h0 : ¬ q ≤ 0 := fun h => absurd (le_trans hq h) (by norm_num)
      have h1 : ¬ q < 1 := not_lt_of_le hq
      simp [validateAmount, ht, hn, h0, h1]
  · by_cases ht : v.truthy
    · rcases hn : toNumber v with _ | q
      · exact Or.inr ⟨"Amount must be a positive number",
          by simp [validateAmount, ht, hn]⟩
      · by_cases h0 : q ≤ 0
        · exact Or.inr ⟨"Amount must be a positive number",
            by simp [validateAmount, ht, hn, h0]⟩
        · by_cases h1 : q < 1
          · exact Or.inr ⟨"Minimum amount is ₹1",
              by simp [validateAmount, ht, hn, h0, h1]⟩
          · exact Or.inl (by simp [validateAmount, ht, hn, h0, h1])
    · exact Or.inr ⟨"Amount is required", by simp [validateAmount, ht]⟩

/-- C7 counterexample: a non-null body that contains a `data` field whose
value is `null` is still rejected with `{processed:false}` — the OAuth
handler tests the truthiness of `data`, not the presence of the field. -/
theorem oauthWebhook_rejects_null_data :
    handlePhonePeWebhookOAuth (JVal.obj [("data", JVal.jnull)]) =
      Except.ok (JVal.obj [("processed", JVal.jbool false),
        ("message", JVal.jstr "Invalid webhook format")]) := rfl

/-- C7 (amended): the OAuth `handlePhonePeWebhook` takes only the body — no
signature or authentication input exists — and never throws: for every body
it returns `{processed:true}` with the payload's `merchantOrderId`, `state`,
`amount` and `success` passed through as-is exactly when the body and its
`data` field are truthy, and `{processed:false}` otherwise (so a body whose
`data` field is falsy — `null`, `false`, `0`, `""` — is rejected even
though the field is present). -/
theorem oauthWebhook_trusts_truthy_data (b : JVal) :
    handlePhonePeWebhookOAuth b = Except.ok (
      if b.truthy && (JVal.getFieldSafe b "data").truthy then
        JVal.obj [("processed", JVal.jbool true),
          ("orderId", JVal.getFieldSafe (JVal.getFieldSafe b "data") "merchantOrderId"),
          ("status", JVal.getFieldSafe (JVal.getFieldSafe b "data") "state"),
          ("amount", JVal.getFieldSafe (JVal.getFieldSafe b "data") "amount"),
          ("success", JVal.getFieldSafe b "success")]
      else JVal.obj [("processed", JVal.jbool false),
        ("message", JVal.jstr "Invalid webhook format")]) :=
  handlePhonePeWebhookOAuth_eq b

/-- C5: `getAccessToken` (i) returns the exact cached token, leaves the
cache untouched and issues no fetch whenever the cache holds a (non-empty)
token whose `expiresAt` is strictly in the future; (ii) otherwise fetches
once and caches the fresh token with expiry `now + (expires_in - 60)`
seconds (in epoch milliseconds); and (iii) a second sequential call before
that expiry returns the identical token with no further fetch. -/
theorem getAccessToken_cache_spec (cfg : OAuthConfig) (cache : TokenCache)
    (now now2 : Int) (fo fo2 : Except String TokenResponse) (t tok : String)
    (resp : TokenResponse) :
    (cache.accessToken = some t → t ≠ "" → now < cache.expiresAt.getD 0 →
      getAccessToken cfg cache now fo = (Except.ok t, cache, 0)) ∧
    (cacheHit cache now = false → envTruthy cfg.clientId = true →
      envTruthy cfg.clientSecret = true → resp.access_token = some tok →
      tok ≠ "" →
      getAccessToken cfg cache now (Except.ok resp) =
        (Except.ok tok,
          { accessToken := some tok,
            expiresAt := some (now + (resp.expires_in - 60) * 1000) }, 1) ∧
      (now2 < now + (resp.expires_in - 60) * 1000 →
        getAccessToken cfg
            { accessToken := some tok,
              expiresAt := some (now + (resp.expires_in - 60) * 1000) }
            now2 fo2 =
          (Except.ok tok,
            { accessToken := some tok,
              expiresAt := some (now + (resp.expires_in - 60) * 1000) }, 0))) := by
  constructor
  · intro hat hne hlt
    have hh : cacheHit cache now = true := by
      simp [cacheHit, hat, hne, hlt]
    simp [getAccessToken, hh, hat]
  · intro hmiss hid hsec htok hne
    constructor
    · simp [getAccessToken, hmiss, hid, hsec, fetchSettle, htok, hne]
    · intro hlt2
      have hh2 : cacheHit
          { accessToken := some tok,
            expiresAt := some (now + (resp.expires_in - 60) * 1000) } now2 = true := by
        simp [cacheHit, hne, hlt2]
      simp [getAccessToken, hh2]

/-- C5 witness: a concrete miss-then-hit pair of sequential calls. -/
theorem getAccessToken_cache_spec_witness :
    getAccessToken ⟨some "id", some "sec"⟩ emptyTokenCache 1000
        (Except.ok ⟨some "tok", 300⟩) =
      (Except.ok "tok", ⟨some "tok", some (1000 + (300 - 60) * 1000)⟩, 1) ∧
    getAccessToken ⟨some "id", some "sec"⟩
        ⟨some "tok", some (1000 + (300 - 60) * 1000)⟩ 2000
        (Except.ok ⟨some "x", 300⟩) =
      (Except.ok "tok", ⟨some "tok", some (1000 + (300 - 60) * 1000)⟩, 0) := by
  have h := (getAccessToken_cache_spec ⟨some "id", some "sec"⟩ emptyTokenCache
    1000 2000 (Except.ok ⟨some "x", 300⟩) (Except.ok ⟨some "x", 300⟩)
    "tok" "tok" ⟨some "tok", 300⟩).2
    (by decide) (by decide) (by decide) rfl (by decide)
  exact ⟨h.1, h.2 (by decide)⟩

/-- C6 counterexample: with an empty cache, two callers that both enter
`getAccessToken` before either token response arrives (the event-loop order
A-checks, B-checks, A-settles, B-settles) issue two token fetches in the
same expiry window — not at most one. -/
theorem concurrent_calls_double_fetch :
    (runSchedule ⟨some "id", some "sec"⟩ 0 (Except.ok ⟨some "tok", 300⟩)
      [Tid.A, Tid.B, Tid.A, Tid.B] (startTwoCallers emptyTokenCache)).fetches = 2 := rfl

/-- C6 (amended): `getAccessToken` has no single-flight guard: every caller
that observes an absent or expired token at its cache check issues its own
fetch, so two callers interleaved before either settles issue two fetches in
one expiry window (both still complete with the fetched token); only
sequential execution — the second caller checking after the first has
settled — reuses the cache and keeps the window to a single fetch. -/
theorem tokenCache_no_single_flight (cfg : OAuthConfig) (cache : TokenCache)
    (now : Int) (resp : TokenResponse) (tok : String)
    (hmiss : cacheHit cache now = false)
    (hid : envTruthy cfg.clientId = true)
    (hsec : envTruthy cfg.clientSecret = true)
    (htok : resp.access_token = some tok) (hne : tok ≠ "")
    (hwin : 0 < (resp.expires_in - 60) * 1000) :
    ((runSchedule cfg now (Except.ok resp) [Tid.A, Tid.B, Tid.A, Tid.B]
        (startTwoCallers cache)).fetches = 2 ∧
      (runSchedule cfg now (Except.ok resp) [Tid.A, Tid.B, Tid.A, Tid.B]
        (startTwoCallers cache)).phaseA = CallerPhase.done (Except.ok tok) ∧
      (runSchedule cfg now (Except.ok resp) [Tid.A, Tid.B, Tid.A, Tid.B]
        (startTwoCallers cache)).phaseB = CallerPhase.done (Except.ok tok)) ∧
    ((runSchedule cfg now (Except.ok resp) [Tid.A, Tid.A, Tid.B]
        (startTwoCallers cache)).fetches = 1 ∧
      (runSchedule cfg now (Except.ok resp) [Tid.A, Tid.A, Tid.B]
        (startTwoCallers cache)).phaseB = CallerPhase.done (Except.ok tok)) := by
  have hlt : now < now + (resp.expires_in - 60) * 1000 := by omega
  constructor
  · refine ⟨?_, ?_, ?_⟩ <;>
      simp [runSchedule, stepTid, stepPhase, startTwoCallers, hmiss, hid, hsec,
        fetchSettle, htok, hne]
  · have hh2 : cacheHit
        { accessToken := some tok,
          expiresAt := some (now + (resp.expires_in - 60) * 1000) } now = true := by
      simp [cacheHit, hne, hlt]
    refine ⟨?_, ?_⟩ <;>
      simp [runSchedule, stepTid, stepPhase, startTwoCallers, hmiss, hid, hsec,
        fetchSettle, htok, hne, hh2]

/-- C6 witness: the amended theorem at a concrete configuration. -/
theorem tokenCache_no_single_flight_witness :
    ((runSchedule ⟨some "id", some "sec"⟩ 5 (Except.ok ⟨some "tok", 300⟩)
        [Tid.A, Tid.B, Tid.A, Tid.B] (startTwoCallers emptyTokenCache)).fetches = 2 ∧
      (runSchedule ⟨some "id", some "sec"⟩ 5 (Except.ok ⟨some "tok", 300⟩)
        [Tid.A, Tid.B, Tid.A, Tid.B] (startTwoCallers emptyTokenCache)).phaseA =
          CallerPhase.done (Except.ok "tok") ∧
      (runSchedule ⟨some "id", some "sec"⟩ 5 (Except.ok ⟨some "tok", 300⟩)
        [Tid.A, Tid.B, Tid.A, Tid.B] (startTwoCallers emptyTokenCache)).phaseB =
          CallerPhase.done (Except.ok "tok")) ∧
    ((runSchedule ⟨some "id", some "sec"⟩ 5 (Except.ok ⟨some "tok", 300⟩)
        [Tid.A, Tid.A, Tid.B] (startTwoCallers emptyTokenCache)).fetches = 1 ∧
      (runSchedule ⟨some "id", some "sec"⟩ 5 (Except.ok ⟨some "tok", 300⟩)
        [Tid.A, Tid.A, Tid.B] (startTwoCallers emptyTokenCache)).phaseB =
          CallerPhase.done (Except.ok "tok")) :=
  tokenCache_no_single_flight ⟨some "id", some "sec"⟩ emptyTokenCache 5
    ⟨some "tok", 300⟩ "tok" (by decide) (by decide) (by decide) rfl
    (by decide) (by decide)

/-- On a non-nullish body whose signature header does not match the
HMAC-SHA256 of its JSON serialisation, the Razorpay handler returns
`{valid:false}` without throwing. -/
theorem razorpayWebhook_mismatch (secret : String) (b : JVal) (sig : Option String)
    (h1 : b ≠ JVal.jnull) (h2 : b ≠ JVal.jundef)
    (hs : sig ≠ some (hmacSha256Hex secret (stringifyD b))) :
    handleRazorpayWebhook secret b sig =
      Except.ok (JVal.obj [("valid", JVal.jbool false),
        ("message", JVal.jstr "Invalid signature")]) := by
  unfold handleRazorpayWebhook
  rw [getField_of_base b "event" h1 h2, jsonStringify_of_ne_undef b h2]
  simp only [Bind.bind, Except.bind]
  rw [if_pos (Ne.symm hs)]
  rfl

/-- On a signature match and a `payment.authorized` event with the payload
entity present, the Razorpay handler returns the success result. -/
theorem razorpayWebhook_authorized (secret : String) (b pm ent pid : JVal)
    (h1 : b ≠ JVal.jnull) (h2 : b ≠ JVal.jundef)
    (hev : JVal.getFieldSafe b "event" = JVal.jstr "payment.authorized")
    (hpm : JVal.getField (JVal.getFieldSafe b "payload") "payment" = Except.ok pm)
    (hent : JVal.getField pm "entity" = Except.ok ent)
    (hid : JVal.getField ent "id" = Except.ok pid) :
    handleRazorpayWebhook secret b
        (some (hmacSha256Hex secret (stringifyD b))) =
      Except.ok (JVal.obj [("valid", JVal.jbool true),
        ("event", JVal.jstr "payment.authorized"),
        ("paymentId", pid), ("status", JVal.jstr "success")]) := by
  unfold handleRazorpayWebhook
  rw [getField_of_base b "event" h1 h2, jsonStringify_of_ne_undef b h2]
  simp only [Bind.bind, Except.bind]
  rw [if_neg (fun h => h rfl)]
  rw [hev]
  simp only [hpm, hent, hid]
  rfl

/-- On a signature match and a `payment.failed` event with the payload
entity present, the Razorpay handler returns the failed result with the
entity's error description as reason. -/
theorem razorpayWebhook_failed (secret : String) (b pm ent pid : JVal)
    (h1 : b ≠ JVal.jnull) (h2 : b ≠ JVal.jundef)
    (hev : JVal.getFieldSafe b "event" = JVal.jstr "payment.failed")
    (hpm : JVal.getField (JVal.getFieldSafe b "payload") "payment" = Except.ok pm)
    (hent : JVal.getField pm "entity" = Except.ok ent)
    (hid : JVal.getField ent "id" = Except.ok pid) :
    handleRazorpayWebhook secret b
        (some (hmacSha256Hex secret (stringifyD b))) =
      Except.ok (JVal.obj [("valid", JVal.jbool true),
        ("event", JVal.jstr "payment.failed"),
        ("paymentId", pid), ("status", JVal.jstr "failed"),
        ("reason", JVal.getFieldSafe ent "error_description")]) := by
  unfold handleRazorpayWebhook
  rw [getField_of_base b "event" h1 h2, jsonStringify_of_ne_undef b h2]
  simp only [Bind.bind, Except.bind]
  rw [if_neg (fun h => h rfl)]
  rw [hev]
  simp only [hpm, hent, hid, getField_ok_of_ok "error_description" hid]
  rfl

/-- On a signature match and a `payment.captured` event with the payload
entity present, the Razorpay handler returns the captured result. -/
theorem razorpayWebhook_captured (secret : String) (b pm ent pid : JVal)
    (h1 : b ≠ JVal.jnull) (h2 : b ≠ JVal.jundef)
    (hev : JVal.getFieldSafe b "event" = JVal.jstr "payment.captured")
    (hpm : JVal.getField (JVal.getFieldSafe b "payload") "payment" = Except.ok pm)
    (hent : JVal.getField pm "entity" = Except.ok ent)
    (hid : JVal.getField ent "id" = Except.ok pid) :
    handleRazorpayWebhook secret b
        (some (hmacSha256Hex secret (stringifyD b))) =
      Except.ok (JVal.obj [("valid", JVal.jbool true),
        ("event", JVal.jstr "payment.captured"),
        ("paymentId", pid), ("status", JVal.jstr "captured")]) := by
  unfold handleRazorpayWebhook
  rw [getField_of_base b "event" h1 h2, jsonStringify_of_ne_undef b h2]
  simp only [Bind.bind, Except.bind]
  rw [if_neg (fun h => h rfl)]
  rw [hev]
  simp only [hpm, hent, hid]
  rfl

/-- On a signature match and a `refund.created` event with the refund entity
present, the Razorpay handler returns the refunded result. -/
theorem razorpayWebhook_refunded (secret : String) (b rf ent rid : JVal)
    (h1 : b ≠ JVal.jnull) (h2 : b ≠ JVal.jundef)
    (hev : JVal.getFieldSafe b "event" = JVal.jstr "refund.created")
    (hrf : JVal.getField (JVal.getFieldSafe b "payload") "refund" = Except.ok rf)
    (hent : JVal.getField rf "entity" = Except.ok ent)
    (hid : JVal.getField ent "id" = Except.ok rid) :
    handleRazorpayWebhook secret b
        (some (hmacSha256Hex secret (stringifyD b))) =
      Except.ok (JVal.obj [("valid", JVal.jbool true),
        ("event", JVal.jstr "refund.created"),
        ("refundId", rid), ("status", JVal.jstr "refunded")]) := by
  unfold handleRazorpayWebhook
  rw [getField_of_base b "event" h1 h2, jsonStringify_of_ne_undef b h2]
  simp only [Bind.bind, Except.bind]
  rw [if_neg (fun h => h rfl)]
  rw [hev]
  simp only [hrf, hent, hid, getField_ok_of_ok "payment_id" hid]
  rfl

/-- On a signature match and an event string outside the four known values,
the Razorpay handler accepts the webhook but marks it unprocessed. -/
theorem razorpayWebhook_default (secret : String) (b : JVal) (ev : String)
    (h1 : b ≠ JVal.jnull) (h2 : b ≠ JVal.jundef)
    (hev : JVal.getFieldSafe b "event" = JVal.jstr ev)
    (hne1 : ev ≠ "payment.authorized") (hne2 : ev ≠ "payment.failed")
    (hne3 : ev ≠ "payment.captured") (hne4 : ev ≠ "refund.created") :
    handleRazorpayWebhook secret b
        (some (hmacSha256Hex secret (stringifyD b))) =
      Except.ok (JVal.obj [("valid", JVal.jbool true),
        ("event", JVal.jstr ev), ("processed", JVal.jbool false)]) := by
  unfold handleRazorpayWebhook
  rw [getField_of_base b "event" h1 h2, jsonStringify_of_ne_undef b h2]
  simp only [Bind.bind, Except.bind]
  rw [if_neg (fun h => h rfl)]
  rw [hev]
  simp only [hne1, hne2, hne3, hne4, if_false, ite_false]
  rfl

/-- Stage 1: a Basic-Auth header that does not match
`base64("{user}:{pass}")` is rejected before anything else, for every body
and X-VERIFY header. -/
theorem saltWebhook_authFail (saltKey saltIndex u p : String) (b : JVal)
    (xv auth : Option String)
    (ha : (match auth with
           | none => ""
           | some s => replaceFirst s "Basic " "") ≠
        base64Encode (utf8Encode (u ++ ":" ++ p))) :
    handlePhonePeWebhookSalt saltKey saltIndex u p b xv auth =
      Except.ok (JVal.obj [("valid", JVal.jbool false),
        ("message", JVal.jstr "Invalid authentication")]) := by
  unfold handlePhonePeWebhookSalt
  rw [if_pos ha]
  rfl

/-- Stage 2: with the Basic-Auth check passed, an X-VERIFY header that does
not match the recomputed signature over the serialised body is rejected. -/
theorem saltWebhook_sigFail (saltKey saltIndex u p : String) (b : JVal)
    (xv auth : Option String)
    (ha : (match auth with
           | none => ""
           | some s => replaceFirst s "Basic " "") =
        base64Encode (utf8Encode (u ++ ":" ++ p)))
    (hsig : xv ≠ some (generatePhonePeSignature saltKey saltIndex (stringifyD b))) :
    handlePhonePeWebhookSalt saltKey saltIndex u p b xv auth =
      Except.ok (JVal.obj [("valid", JVal.jbool false),
        ("message", JVal.jstr "Invalid signature")]) := by
  have hv : verifyPhonePeSignature saltKey saltIndex (stringifyD b) xv = false := by
    unfold verifyPhonePeSignature
    exact beq_eq_false_iff_ne.mpr (Ne.symm hsig)
  unfold handlePhonePeWebhookSalt
  rw [if_neg (fun h => h ha)]
  simp only [Bind.bind, Except.bind]
  rw [hv]
  rfl

/-- With both checks passed, a string `data.response` that base64-decodes
and JSON-parses to a non-nullish value yields the verified result whose
fields are read off the decoded value and whose `success` is the strict
comparison of its `state` with `"COMPLETED"`. -/
theorem saltWebhook_verified_parsed (saltKey saltIndex u p : String)
    (b d v : JVal) (rs : String) (auth : Option String)
    (ha : (match auth with
           | none => ""
           | some s => replaceFirst s "Basic " "") =
        base64Encode (utf8Encode (u ++ ":" ++ p)))
    (hd : JVal.getField b "data" = Except.ok d)
    (hresp : JVal.getField d "response" = Except.ok (JVal.jstr rs))
    (hparse : jsonParse (utf8Decode (base64Decode rs)) = some v)
    (hv1 : v ≠ JVal.jnull) (hv2 : v ≠ JVal.jundef) :
    handlePhonePeWebhookSalt saltKey saltIndex u p b
        (some (generatePhonePeSignature saltKey saltIndex (stringifyD b))) auth =
      Except.ok (JVal.obj [("valid", JVal.jbool true),
        ("transactionId", JVal.getFieldSafe v "merchantTransactionId"),
        ("status", JVal.getFieldSafe v "state"),
        ("responseCode", JVal.getFieldSafe v "responseCode"),
        ("amount", JVal.getFieldSafe v "amount"),
        ("timestamp", JVal.getFieldSafe v "transactionDate"),
        ("success", JVal.jbool (JVal.jsStrictEq (JVal.getFieldSafe v "state")
          (JVal.jstr "COMPLETED")))]) := by
  have hv : verifyPhonePeSignature saltKey saltIndex (stringifyD b)
      (some (generatePhonePeSignature saltKey saltIndex (stringifyD b))) = true := by
    unfold verifyPhonePeSignature
    exact beq_self_eq_true _
  unfold handlePhonePeWebhookSalt
  rw [if_neg (fun h => h ha)]
  simp only [Bind.bind, Except.bind]
  rw [hv]
  simp only [Bind.bind, Except.bind, hd, hresp, hparse]
  rw [getField_of_base v "merchantTransactionId" hv1 hv2,
    getField_of_base v "state" hv1 hv2,
    getField_of_base v "responseCode" hv1 hv2,
    getField_of_base v "amount" hv1 hv2,
    getField_of_base v "transactionDate" hv1 hv2]
  rfl

/-- With both checks passed, a string `data.response` that fails to JSON
parse falls back to the raw string: every extracted field is `undefined`
and `success` is false. -/
theorem saltWebhook_verified_fallback (saltKey saltIndex u p : String)
    (b d : JVal) (rs : String) (auth : Option String)
    (ha : (match auth with
           | none => ""
           | some s => replaceFirst s "Basic " "") =
        base64Encode (utf8Encode (u ++ ":" ++ p)))
    (hd : JVal.getField b "data" = Except.ok d)
    (hresp : JVal.getField d "response" = Except.ok (JVal.jstr rs))
    (hparse : jsonParse (utf8Decode (base64Decode rs)) = none) :
    handlePhonePeWebhookSalt saltKey saltIndex u p b
        (some (generatePhonePeSignature saltKey saltIndex (stringifyD b))) auth =
      Except.ok (JVal.obj [("valid", JVal.jbool true),
        ("transactionId", JVal.jundef), ("status", JVal.jundef),
        ("responseCode", JVal.jundef), ("amount", JVal.jundef),
        ("timestamp", JVal.jundef), ("success", JVal.jbool false)]) := by
  have hv : verifyPhonePeSignature saltKey saltIndex (stringifyD b)
      (some (generatePhonePeSignature saltKey saltIndex (stringifyD b))) = true := by
    unfold verifyPhonePeSignature
    exact beq_self_eq_true _
  unfold handlePhonePeWebhookSalt
  rw [if_neg (fun h => h ha)]
  simp only [Bind.bind, Except.bind]
  rw [hv]
  simp only [Bind.bind, Except.bind, hd, hresp, hparse]
  rfl

/-- C2 counterexample: `handleRazorpayWebhook` propagates an exception on a
null body — the entry logging reads `webhookData.event`, throwing a
`TypeError` that the handler's catch block logs and re-throws — instead of
returning a `{valid:false}` / `{processed:false}` result. -/
theorem razorpayWebhook_throws_on_null_body :
    jsThrows (handleRazorpayWebhook "s3cr3t" JVal.jnull (some "x")) = true := rfl

/-- C2 (amended): the OAuth PhonePe handler never propagates an exception
for any body; the Razorpay and salt-based PhonePe handlers return
`{valid:false}` without raising whenever their authentication or signature
check fails (for the signature recomputation, on a body that is not
nullish), but internal errors after a passed check — a nullish body or
missing payload fields — are re-thrown to the caller; the HTTP route layer
catches them and still acknowledges with HTTP 200. -/
theorem webhookHandlers_error_containment :
    (∀ b : JVal, ∃ r, handlePhonePeWebhookOAuth b = Except.ok r) ∧
    (∀ (secret : String) (b : JVal) (sig : Option String),
      b ≠ JVal.jnull → b ≠ JVal.jundef →
      sig ≠ some (hmacSha256Hex secret (stringifyD b)) →
      handleRazorpayWebhook secret b sig =
        Except.ok (JVal.obj [("valid", JVal.jbool false),
          ("message", JVal.jstr "Invalid signature")])) ∧
    (∀ (saltKey saltIndex u p : String) (b : JVal) (xv auth : Option String),
      (match auth with
       | none => ""
       | some s => replaceFirst s "Basic " "") ≠
          base64Encode (utf8Encode (u ++ ":" ++ p)) →
      handlePhonePeWebhookSalt saltKey saltIndex u p b xv auth =
        Except.ok (JVal.obj [("valid", JVal.jbool false),
          ("message", JVal.jstr "Invalid authentication")])) ∧
    (∀ (saltKey saltIndex u p : String) (b : JVal) (xv auth : Option String),
      (match auth with
       | none => ""
       | some s => replaceFirst s "Basic " "") =
          base64Encode (utf8Encode (u ++ ":" ++ p)) →
      xv ≠ some (generatePhonePeSignature saltKey saltIndex (stringifyD b)) →
      handlePhonePeWebhookSalt saltKey saltIndex u p b xv auth =
        Except.ok (JVal.obj [("valid", JVal.jbool false),
          ("message", JVal.jstr "Invalid signature")])) :=
  ⟨fun b => ⟨_, handlePhonePeWebhookOAuth_eq b⟩,
    fun sec b sig h1 h2 hs => razorpayWebhook_mismatch sec b sig h1 h2 hs,
    fun sk si u p b xv auth ha => saltWebhook_authFail sk si u p b xv auth ha,
    fun sk si u p b xv auth ha hs => saltWebhook_sigFail sk si u p b xv auth ha hs⟩

/-- C2 witness: the containment theorem applied at a concrete mismatched
Razorpay webhook. -/
theorem webhookHandlers_error_containment_witness :
    handleRazorpayWebhook "s3cr3t" (JVal.obj [("event", JVal.jstr "x")])
        (some "0000") =
      Except.ok (JVal.obj [("valid", JVal.jbool false),
        ("message", JVal.jstr "Invalid signature")]) :=
  webhookHandlers_error_containment.2.1 "s3cr3t"
    (JVal.obj [("event", JVal.jstr "x")]) (some "0000")
    (by simp [JVal.obj, JFields.ofList]) (by simp [JVal.obj, JFields.ofList])
    (by decide)

/-- C8 counterexample: on a *matching* signature and the known event
`payment.authorized`, a body without the expected payload entity makes the
handler throw (reading `payment` of an `undefined` payload) instead of
yielding a `valid:true` result. -/
theorem razorpayWebhook_throws_on_missing_payload :
    jsThrows (handleRazorpayWebhook "s3cr3t"
      (JVal.obj [("event", JVal.jstr "payment.authorized")])
      (some "1927d9d8c1b156d985797876d103adcbf9dad1b25d927e24abb5ed49623ab967")) =
      true := rfl

/-- C8 (amended): for every body that is not nullish, a signature that
differs from the HMAC-SHA256 hex digest of the body's JSON serialisation
yields `{valid:false}` without raising; on a match, each known event in
`payment.authorized` / `payment.failed` / `payment.captured` /
`refund.created` whose payload carries the fields the handler reads yields
`valid:true` with the normalized status `success` / `failed` / `captured` /
`refunded` respectively, and any other event string yields
`{valid:true, processed:false}` rather than an error; a nullish body, or a
known event whose payload lacks the read fields, makes the handler throw
instead. -/
theorem razorpayWebhook_event_dispatch :
    (∀ (secret : String) (b : JVal) (sig : Option String),
      b ≠ JVal.jnull → b ≠ JVal.jundef →
      sig ≠ some (hmacSha256Hex secret (stringifyD b)) →
      handleRazorpayWebhook secret b sig =
        Except.ok (JVal.obj [("valid", JVal.jbool false),
          ("message", JVal.jstr "Invalid signature")])) ∧
    (∀ (secret : String) (b pm ent pid : JVal),
      b ≠ JVal.jnull → b ≠ JVal.jundef →
      JVal.getFieldSafe b "event" = JVal.jstr "payment.authorized" →
      JVal.getField (JVal.getFieldSafe b "payload") "payment" = Except.ok pm →
      JVal.getField pm "entity" = Except.ok ent →
      JVal.getField ent "id" = Except.ok pid →
      handleRazorpayWebhook secret b
          (some (hmacSha256Hex secret (stringifyD b))) =
        Except.ok (JVal.obj [("valid", JVal.jbool true),
          ("event", JVal.jstr "payment.authorized"),
          ("paymentId", pid), ("status", JVal.jstr "success")])) ∧
    (∀ (secret : String) (b pm ent pid : JVal),
      b ≠ JVal.jnull → b ≠ JVal.jundef →
      JVal.getFieldSafe b "event" = JVal.jstr "payment.failed" →
      JVal.getField (JVal.getFieldSafe b "payload") "payment" = Except.ok pm →
      JVal.getField pm "entity" = Except.ok ent →
      JVal.getField ent "id" = Except.ok pid →
      handleRazorpayWebhook secret b
          (some (hmacSha256Hex secret (stringifyD b))) =
        Except.ok (JVal.obj [("valid", JVal.jbool true),
          ("event", JVal.jstr "payment.failed"),
          ("paymentId", pid), ("status", JVal.jstr "failed"),
          ("reason", JVal.getFieldSafe ent "error_description")])) ∧
    (∀ (secret : String) (b pm ent pid : JVal),
      b ≠ JVal.jnull → b ≠ JVal.jundef →
      JVal.getFieldSafe b "event" = JVal.jstr "payment.captured" →
      JVal.getField (JVal.getFieldSafe b "payload") "payment" = Except.ok pm →
      JVal.getField pm "entity" = Except.ok ent →
      JVal.getField ent "id" = Except.ok pid →
      handleRazorpayWebhook secret b
          (some (hmacSha256Hex secret (stringifyD b))) =
        Except.ok (JVal.obj [("valid", JVal.jbool true),
          ("event", JVal.jstr "payment.captured"),
          ("paymentId", pid), ("status", JVal.jstr "captured")])) ∧
    (∀ (secret : String) (b rf ent rid : JVal),
      b ≠ JVal.jnull → b ≠ JVal.jundef →
      JVal.getFieldSafe b "event" = JVal.jstr "refund.created" →
      JVal.getField (JVal.getFieldSafe b "payload") "refund" = Except.ok rf →
      JVal.getField rf "entity" = Except.ok ent →
      JVal.getField ent "id" = Except.ok rid →
      handleRazorpayWebhook secret b
          (some (hmacSha256Hex secret (stringifyD b))) =
        Except.ok (JVal.obj [("valid", JVal.jbool true),
          ("event", JVal.jstr "refund.created"),
          ("refundId", rid), ("status", JVal.jstr "refunded")])) ∧
    (∀ (secret : String) (b : JVal) (ev : String),
      b ≠ JVal.jnull → b ≠ JVal.jundef →
      JVal.getFieldSafe b "event" = JVal.jstr ev →
      ev ≠ "payment.authorized" → ev ≠ "payment.failed" →
      ev ≠ "payment.captured" → ev ≠ "refund.created" →
      handleRazorpayWebhook secret b
          (some (hmacSha256Hex secret (stringifyD b))) =
        Except.ok (JVal.obj [("valid", JVal.jbool true),
          ("event", JVal.jstr ev), ("processed", JVal.jbool false)])) :=
  ⟨fun sec b sig h1 h2 hs => razorpayWebhook_mismatch sec b sig h1 h2 hs,
    fun sec b pm ent pid h1 h2 hev hpm hent hid =>
      razorpayWebhook_authorized sec b pm ent pid h1 h2 hev hpm hent hid,
    fun sec b pm ent pid h1 h2 hev hpm hent hid =>
      razorpayWebhook_failed sec b pm ent pid h1 h2 hev hpm hent hid,
    fun sec b pm ent pid h1 h2 hev hpm hent hid =>
      razorpayWebhook_captured sec b pm ent pid h1 h2 hev hpm hent hid,
    fun sec b rf ent rid h1 h2 hev hrf hent hid =>
      razorpayWebhook_refunded sec b rf ent rid h1 h2 hev hrf hent hid,
    fun sec b ev h1 h2 hev n1 n2 n3 n4 =>
      razorpayWebhook_default sec b ev h1 h2 hev n1 n2 n3 n4⟩

/-- C8 witness: the dispatch theorem applied at a concrete
`payment.captured` webhook whose signature is the digest of its
serialisation. -/
theorem razorpayWebhook_event_dispatch_witness :
    handleRazorpayWebhook "s3cr3t"
        (JVal.obj [("event", JVal.jstr "payment.captured"),
          ("payload", JVal.obj [("payment", JVal.obj [("entity",
            JVal.obj [("id", JVal.jstr "pay_1")])])])])
        (some "1ad86c16078016263340780af52c599c8a9833d08c92bda5b90b1a37fcbe3309") =
      Except.ok (JVal.obj [("valid", JVal.jbool true),
        ("event", JVal.jstr "payment.captured"),
        ("paymentId", JVal.jstr "pay_1"), ("status", JVal.jstr "captured")]) := by
  have h := razorpayWebhook_event_dispatch.2.2.2.1 "s3cr3t"
    (JVal.obj [("event", JVal.jstr "payment.captured"),
      ("payload", JVal.obj [("payment", JVal.obj [("entity",
        JVal.obj [("id", JVal.jstr "pay_1")])])])])
    (JVal.obj [("entity", JVal.obj [("id", JVal.jstr "pay_1")])])
    (JVal.obj [("id", JVal.jstr "pay_1")]) (JVal.jstr "pay_1")
    (by simp [JVal.obj, JFields.ofList]) (by simp [JVal.obj, JFields.ofList])
    rfl rfl rfl rfl
  rwa [show hmacSha256Hex "s3cr3t" (stringifyD
      (JVal.obj [("event", JVal.jstr "payment.captured"),
        ("payload", JVal.obj [("payment", JVal.obj [("entity",
          JVal.obj [("id", JVal.jstr "pay_1")])])])])) =
    "1ad86c16078016263340780af52c599c8a9833d08c92bda5b90b1a37fcbe3309" from by decide] at h

/-- C4 counterexample: a webhook body with no `data` field passes both
checks (Basic-Auth `base64("u:p")` and a correctly computed X-VERIFY) and
then throws — reading `response` of the `undefined` `data`, both in the
decode attempt and in its fallback — instead of returning a result. -/
theorem saltWebhook_throws_without_data :
    jsThrows (handlePhonePeWebhookSalt "SALT1" "1" "u" "p" (JVal.obj [])
      (some "6dc60b62cf44afcd873683684ed7c7772e6727f83bb0e4b1ef18bc7caf1607fb###1")
      (some "Basic dTpw")) = true := rfl

/-- C4 (amended): the salt-based `handlePhonePeWebhook` verifies in two
stages in order — a Basic-Auth header not matching
`base64("{user}:{pass}")` yields `{valid:false, message:"Invalid
authentication"}` for every body and X-VERIFY header; with auth passed, an
X-VERIFY header not matching the recomputed signature over the JSON
serialisation of the body yields `{valid:false, message:"Invalid
signature"}`. Only when both pass is the nested `data.response` string
base64-decoded and JSON-parsed: a parse to a non-nullish value yields a
result whose fields come from the decoded value with `success` true iff its
`state` strictly equals `"COMPLETED"`, and a parse failure falls back to
the raw string, yielding `undefined` fields and `success` false; a body
whose `data` or `data.response` is missing after both checks pass makes the
handler throw instead of returning a result. -/
theorem saltWebhook_two_stage_verification :
    (∀ (saltKey saltIndex u p : String) (b : JVal) (xv auth : Option String),
      (match auth with
       | none => ""
       | some s => replaceFirst s "Basic " "") ≠
          base64Encode (utf8Encode (u ++ ":" ++ p)) →
      handlePhonePeWebhookSalt saltKey saltIndex u p b xv auth =
        Except.ok (JVal.obj [("valid", JVal.jbool false),
          ("message", JVal.jstr "Invalid authentication")])) ∧
    (∀ (saltKey saltIndex u p : String) (b : JVal) (xv auth : Option String),
      (match auth with
       | none => ""
       | some s => replaceFirst s "Basic " "") =
          base64Encode (utf8Encode (u ++ ":" ++ p)) →
      xv ≠ some (generatePhonePeSignature saltKey saltIndex (stringifyD b)) →
      handlePhonePeWebhookSalt saltKey saltIndex u p b xv auth =
        Except.ok (JVal.obj [("valid", JVal.jbool false),
          ("message", JVal.jstr "Invalid signature")])) ∧
    (∀ (saltKey saltIndex u p : String) (b d v : JVal) (rs : String)
        (auth : Option String),
      (match auth with
       | none => ""
       | some s => replaceFirst s "Basic " "") =
          base64Encode (utf8Encode (u ++ ":" ++ p)) →
      JVal.getField b "data" = Except.ok d →
      JVal.getField d "response" = Except.ok (JVal.jstr rs) →
      jsonParse (utf8Decode (base64Decode rs)) = some v →
      v ≠ JVal.jnull → v ≠ JVal.jundef →
      handlePhonePeWebhookSalt saltKey saltIndex u p b
          (some (generatePhonePeSignature saltKey saltIndex (stringifyD b))) auth =
        Except.ok (JVal.obj [("valid", JVal.jbool true),
          ("transactionId", JVal.getFieldSafe v "merchantTransactionId"),
          ("status", JVal.getFieldSafe v "state"),
          ("responseCode", JVal.getFieldSafe v "responseCode"),
          ("amount", JVal.getFieldSafe v "amount"),
          ("timestamp", JVal.getFieldSafe v "transactionDate"),
          ("success", JVal.jbool (JVal.jsStrictEq (JVal.getFieldSafe v "state")
            (JVal.jstr "COMPLETED")))])) ∧
    (∀ (saltKey saltIndex u p : String) (b d : JVal) (rs : String)
        (auth : Option String),
      (match auth with
       | none => ""
       | some s => replaceFirst s "Basic " "") =
          base64Encode (utf8Encode (u ++ ":" ++ p)) →
      JVal.getField b "data" = Except.ok d →
      JVal.getField d "response" = Except.ok (JVal.jstr rs) →
      jsonParse (utf8Decode (base64Decode rs)) = none →
      handlePhonePeWebhookSalt saltKey saltIndex u p b
          (some (generatePhonePeSignature saltKey saltIndex (stringifyD b))) auth =
        Except.ok (JVal.obj [("valid", JVal.jbool true),
          ("transactionId", JVal.jundef), ("status", JVal.jundef),
          ("responseCode", JVal.jundef), ("amount", JVal.jundef),
          ("timestamp", JVal.jundef), ("success", JVal.jbool false)])) ∧
    (∀ x : JVal, JVal.jsStrictEq x (JVal.jstr "COMPLETED") = true ↔
      x = JVal.jstr "COMPLETED") :=
  ⟨fun sk si u p b xv auth ha => saltWebhook_authFail sk si u p b xv auth ha,
    fun sk si u p b xv auth ha hs => saltWebhook_sigFail sk si u p b xv auth ha hs,
    fun sk si u p b d v rs auth ha hd hresp hparse hv1 hv2 =>
      saltWebhook_verified_parsed sk si u p b d v rs auth ha hd hresp hparse hv1 hv2,
    fun sk si u p b d rs auth ha hd hresp hparse =>
      saltWebhook_verified_fallback sk si u p b d rs auth ha hd hresp hparse,
    fun x => jsStrictEq_jstr_iff x "COMPLETED"⟩

/-- C4 witness: the two-stage theorem applied at a concrete verified
webhook whose `data.response` decodes to a `COMPLETED` transaction. -/
theorem saltWebhook_two_stage_verification_witness :
    handlePhonePeWebhookSalt "SALT1" "1" "u" "p"
        (JVal.obj [("data", JVal.obj [("response",
          JVal.jstr "eyJzdGF0ZSI6IkNPTVBMRVRFRCIsIm1lcmNoYW50VHJhbnNhY3Rpb25JZCI6IlQxIn0=")])])
        (some "a4aa8a0c096601e5d292a5f54b24d1c9a44b795464c38d0d275dd220a6b5f4b0###1")
        (some "Basic dTpw") =
      Except.ok (JVal.obj [("valid", JVal.jbool true),
        ("transactionId", JVal.jstr "T1"),
        ("status", JVal.jstr "COMPLETED"),
        ("responseCode", JVal.jundef), ("amount", JVal.jundef),
        ("timestamp", JVal.jundef), ("success", JVal.jbool true)]) := by
  have h := saltWebhook_two_stage_verification.2.2.1 "SALT1" "1" "u" "p"
    (JVal.obj [("data", JVal.obj [("response",
      JVal.jstr "eyJzdGF0ZSI6IkNPTVBMRVRFRCIsIm1lcmNoYW50VHJhbnNhY3Rpb25JZCI6IlQxIn0=")])])
    (JVal.obj [("response",
      JVal.jstr "eyJzdGF0ZSI6IkNPTVBMRVRFRCIsIm1lcmNoYW50VHJhbnNhY3Rpb25JZCI6IlQxIn0=")])
    (JVal.obj [("state", JVal.jstr "COMPLETED"),
      ("merchantTransactionId", JVal.jstr "T1")])
    "eyJzdGF0ZSI6IkNPTVBMRVRFRCIsIm1lcmNoYW50VHJhbnNhY3Rpb25JZCI6IlQxIn0="
    (some "Basic dTpw") rfl rfl rfl rfl
    (by simp [JVal.obj, JFields.ofList]) (by simp [JVal.obj, JFields.ofList])
  rwa [show generatePhonePeSignature "SALT1" "1" (stringifyD
      (JVal.obj [("data", JVal.obj [("response",
        JVal.jstr "eyJzdGF0ZSI6IkNPTVBMRVRFRCIsIm1lcmNoYW50VHJhbnNhY3Rpb25JZCI6IlQxIn0=")])])) =
    "a4aa8a0c096601e5d292a5f54b24d1c9a44b795464c38d0d275dd220a6b5f4b0###1"
    from by decide] at h

/-- C3: `generatePhonePeSignature` is, for all inputs, exactly the lowercase
hex SHA-256 digest of `payload ++ saltKey` followed by `"###"` and the salt
index (as a Lean function of exactly these three inputs its determinism and
purity are inherent in the embedding); at the specification's example the
digest is `617631c8…`; replacing any single byte of the hashed input
`payload ++ saltKey` of the example changes the hash part, and changing the
salt index changes the signature string (the index is appended after
`"###"` and does not enter the hash). -/
theorem generatePhonePeSignature_spec :
    (∀ payload saltKey saltIndex,
      generatePhonePeSignature saltKey saltIndex payload =
        sha256Hex (payload ++ saltKey) ++ "###" ++ saltIndex) ∧
    sha256Hex "eyJhIjoxfQ==SALT1" =
      "617631c84ab8cb0c7d99dd7499b8e369d0cb561865d41145469b10ec7eb5707d" ∧
    generatePhonePeSignature "SALT1" "1" "eyJhIjoxfQ==" =
      "617631c84ab8cb0c7d99dd7499b8e369d0cb561865d41145469b10ec7eb5707d###1" ∧
    ((List.range 17).all (fun i =>
      sha256Hex (perturbAt "eyJhIjoxfQ==SALT1" i) ≠
        "617631c84ab8cb0c7d99dd7499b8e369d0cb561865d41145469b10ec7eb5707d")) = true ∧
    generatePhonePeSignature "SALT1" "2" "eyJhIjoxfQ==" ≠
      generatePhonePeSignature "SALT1" "1" "eyJhIjoxfQ==" := by
  have hdig : sha256Hex "eyJhIjoxfQ==SALT1" =
      "617631c84ab8cb0c7d99dd7499b8e369d0cb561865d41145469b10ec7eb5707d" := rfl
  refine ⟨fun payload saltKey saltIndex => rfl, hdig, ?_, by decide, ?_⟩
  · rw [show generatePhonePeSignature "SALT1" "1" "eyJhIjoxfQ==" =
        sha256Hex "eyJhIjoxfQ==SALT1" ++ "###" ++ "1" from rfl, hdig]
    rfl
  · intro h
    have h2 := congrArg String.data h
    simp only [String.data_append] at h2
    have h3 := List.append_cancel_left h2
    exact absurd h3 (by decide)

end PayGw
